import Mathlib

/-!
# u-blox UBX message structures (`include/ublox/ublox_structures.h`)

The header file declares the wire structures of the UBX binary protocol as C
structs, some of them wrapped in the `PACK` macro, together with the
`Message_ID` enumeration and the buffer bound `MAX_NOUT_SIZE`.

The embedding below represents every struct declaration as data (member names
and C types in declaration order, plus whether the declaration is wrapped in
`PACK`) and computes `sizeof`, `alignof` and member offsets the way the compiler
lays a struct out: a member is placed at the next multiple of its alignment, a
struct is padded to a multiple of its own alignment, and a packed struct has
alignment 1 for itself and for all of its members.
-/

namespace Ublox

/-! ## C types -/

mutual
/-- The C types used by the message structures. A struct type records whether
its declaration is wrapped in `PACK` and its members in declaration order. -/
inductive CType where
  | uint8_t
  | int8_t
  | uint16_t
  | int16_t
  | uint32_t
  | int32_t
  | array (elem : CType) (len : Nat)
  | struct (packed : Bool) (members : Members)
/-- Member list of a struct declaration: name and type, in declaration order. -/
inductive Members where
  | nil
  | cons (name : String) (ty : CType) (rest : Members)
end

/-- Round `off` up to the next multiple of `align`. -/
def alignUp (off align : Nat) : Nat :=
  (off + align - 1) / align * align

mutual
/-- Alignment requirement of a type (`alignof`): the natural alignment of a
scalar, that of the element for an array, and for a struct 1 when packed,
otherwise the largest alignment among its members. -/
def CType.alignof : CType → Nat
  | .uint8_t => 1
  | .int8_t => 1
  | .uint16_t => 2
  | .int16_t => 2
  | .uint32_t => 4
  | .int32_t => 4
  | .array elem _ => elem.alignof
  | .struct packed members => if packed then 1 else members.maxAlign
/-- Largest alignment among the members (1 for an empty list). -/
def Members.maxAlign : Members → Nat
  | .nil => 1
  | .cons _ ty rest => max ty.alignof rest.maxAlign
end

mutual
/-- Size of a type in bytes (`sizeof`). -/
def CType.sizeof : CType → Nat
  | .uint8_t => 1
  | .int8_t => 1
  | .uint16_t => 2
  | .int16_t => 2
  | .uint32_t => 4
  | .int32_t => 4
  | .array elem len => len * elem.sizeof
  | .struct packed members =>
      alignUp (members.endOffset packed 0) (if packed then 1 else members.maxAlign)
/-- Offset just past the last member when the members are laid out starting
at offset `off`. -/
def Members.endOffset : Members → Bool → Nat → Nat
  | .nil, _, off => off
  | .cons _ ty rest, packed, off =>
      rest.endOffset packed (alignUp off (if packed then 1 else ty.alignof) + ty.sizeof)
end

/-- Offset of member `name` (`offsetof`) when the members are laid out starting
at offset `off`; `none` when there is no such member. -/
def Members.offsetFrom : Members → Bool → Nat → String → Option Nat
  | .nil, _, _, _ => none
  | .cons n ty rest, packed, off, name =>
      let start := alignUp off (if packed then 1 else ty.alignof)
      if n = name then some start else rest.offsetFrom packed (start + ty.sizeof) name

/-- Declared type of member `name`. -/
def Members.typeOf : Members → String → Option CType
  | .nil, _ => none
  | .cons n ty rest, name => if n = name then some ty else rest.typeOf name

/-- Member names in declaration order. -/
def Members.names : Members → List String
  | .nil => []
  | .cons n _ rest => n :: rest.names

/-- Sum of the widths of the members, without any padding. -/
def Members.widthSum : Members → Nat
  | .nil => 0
  | .cons _ ty rest => ty.sizeof + rest.widthSum

/-- Members other than the frame header and the checksum trailer: the payload
fields of a message struct. -/
def Members.payload : Members → Members
  | .nil => .nil
  | .cons n ty rest =>
      if n = "header" ∨ n = "checksum" then rest.payload else .cons n ty rest.payload

/-- Members of a struct type (empty for a non-struct type). -/
def CType.members : CType → Members
  | .struct _ members => members
  | _ => .nil

/-- Whether the type is a struct declared inside `PACK`. -/
def CType.isPacked : CType → Bool
  | .struct packed _ => packed
  | _ => false

/-- Offset of member `name` in struct `s`: `offsetof(s, name)`. -/
def CType.offsetof (s : CType) (name : String) : Option Nat :=
  s.members.offsetFrom s.isPacked 0 name

/-- Declared type of member `name` of struct `s`. -/
def CType.fieldType (s : CType) (name : String) : Option CType :=
  s.members.typeOf name

/-- Number of payload bytes a message struct declares: the summed widths of
the members between the header and the checksum. -/
def CType.payloadWidth (s : CType) : Nat :=
  s.members.payload.widthSum

/-- Name of the first payload member of a message struct. -/
def CType.firstPayloadField (s : CType) : Option String :=
  s.members.payload.names.head?

/-- Smallest value of an integer type. -/
def CType.minVal : CType → Option Int
  | .uint8_t => some 0
  | .int8_t => some (-(2 ^ 7))
  | .uint16_t => some 0
  | .int16_t => some (-(2 ^ 15))
  | .uint32_t => some 0
  | .int32_t => some (-(2 ^ 31))
  | _ => none

/-- Largest value of an integer type. -/
def CType.maxVal : CType → Option Int
  | .uint8_t => some (2 ^ 8 - 1)
  | .int8_t => some (2 ^ 7 - 1)
  | .uint16_t => some (2 ^ 16 - 1)
  | .int16_t => some (2 ^ 15 - 1)
  | .uint32_t => some (2 ^ 32 - 1)
  | .int32_t => some (2 ^ 31 - 1)
  | _ => none

/-! ## Declarations of the header file -/

/-- Declaration `PACK(struct UbloxHeader { ... });` -/
def UbloxHeader : CType :=
  .struct true <|
    .cons "sync1" .uint8_t <|
    .cons "sync2" .uint8_t <|
    .cons "message_class" .uint8_t <|
    .cons "message_id" .uint8_t <|
    .cons "payload_length" .uint16_t .nil

/-- Declaration `PACK(struct NavSol{ ... });` -/
def NavSol : CType :=
  .struct true <|
    .cons "header" UbloxHeader <|
    .cons "iTOW" .uint32_t <|
    .cons "fTOW" .int32_t <|
    .cons "week" .int16_t <|
    .cons "gpsFix" .uint8_t <|
    .cons "flags" .int8_t <|
    .cons "ecefX" .int32_t <|
    .cons "ecefY" .int32_t <|
    .cons "ecefZ" .int32_t <|
    .cons "pAcc" .uint32_t <|
    .cons "ecefVX" .int32_t <|
    .cons "ecefVY" .int32_t <|
    .cons "ecefVZ" .int32_t <|
    .cons "sAcc" .uint32_t <|
    .cons "pDop" .uint16_t <|
    .cons "reserved1" .uint8_t <|
    .cons "numSV" .uint8_t <|
    .cons "reserved2" .uint32_t <|
    .cons "checksum" (.array .uint8_t 2) .nil

/-- Declaration `PACK(struct NavPosLLH{ ... });` -/
def NavPosLLH : CType :=
  .struct true <|
    .cons "header" UbloxHeader <|
    .cons "iTOW" .uint32_t <|
    .cons "longitude_scaled" .int32_t <|
    .cons "latitude_scaled" .int32_t <|
    .cons "height" .int32_t <|
    .cons "height_mean_sea_level" .int32_t <|
    .cons "horizontal_accuracy" .uint32_t <|
    .cons "vertical_accuracy" .uint32_t <|
    .cons "checksum" (.array .uint8_t 2) .nil

/-- Declaration `PACK(struct NavVelNed{ ... });` -/
def NavVelNed : CType :=
  .struct true <|
    .cons "header" UbloxHeader <|
    .cons "iTOW" .uint32_t <|
    .cons "velocity_north" .int32_t <|
    .cons "velocity_east" .int32_t <|
    .cons "velocity_down" .int32_t <|
    .cons "speed" .uint32_t <|
    .cons "ground_speed" .uint32_t <|
    .cons "heading_scaled" .int32_t <|
    .cons "speed_accuracy" .uint32_t <|
    .cons "heading_accuracy" .uint32_t <|
    .cons "checksum" (.array .uint8_t 2) .nil

/-- Declaration `struct CfgMsg { ... };` (not wrapped in `PACK`). -/
def CfgMsg : CType :=
  .struct false <|
    .cons "header" UbloxHeader <|
    .cons "message_class" .uint8_t <|
    .cons "message_id" .uint8_t <|
    .cons "rate" .uint8_t <|
    .cons "checksum" (.array .uint8_t 2) .nil

/-- Declaration `struct CfgCfg { ... };` (not wrapped in `PACK`; the checksum member is a
`uint16_t`). -/
def CfgCfg : CType :=
  .struct false <|
    .cons "header" UbloxHeader <|
    .cons "clear_mask" .uint32_t <|
    .cons "save_mask" .uint32_t <|
    .cons "load_mask" .uint32_t <|
    .cons "checksum" .uint16_t .nil

/-- Declaration `struct CfgRst { ... };` (not wrapped in `PACK`). -/
def CfgRst : CType :=
  .struct false <|
    .cons "header" UbloxHeader <|
    .cons "nav_bbr_mask" .uint16_t <|
    .cons "reset_mode" .uint8_t <|
    .cons "reserved" .uint8_t <|
    .cons "checksum" (.array .uint8_t 2) .nil

/-- Declaration `PACK(struct CfgPrt { ... });` -/
def CfgPrt : CType :=
  .struct true <|
    .cons "header" UbloxHeader <|
    .cons "port_id" .uint8_t <|
    .cons "reserved" .uint8_t <|
    .cons "tx_ready" .uint16_t <|
    .cons "reserved2" .uint32_t <|
    .cons "reserved3" .uint32_t <|
    .cons "input_mask" .uint16_t <|
    .cons "output_mask" .uint16_t <|
    .cons "reserved4" .uint16_t <|
    .cons "reserved5" .uint16_t <|
    .cons "checksum" (.array .uint8_t 2) .nil

/-- Declaration `struct AidIni { ... };` (not wrapped in `PACK`). -/
def AidIni : CType :=
  .struct false <|
    .cons "header" UbloxHeader <|
    .cons "ecefXorLat" .int32_t <|
    .cons "ecefYorLon" .int32_t <|
    .cons "ecefZorAlt" .int32_t <|
    .cons "position_accuracy" .uint32_t <|
    .cons "time_configuration" .uint16_t <|
    .cons "week_number" .uint16_t <|
    .cons "time_of_week" .uint32_t <|
    .cons "time_of_week_ns" .int32_t <|
    .cons "time_accuracy_ms" .uint32_t <|
    .cons "time_accuracy_ns" .uint32_t <|
    .cons "clock_drift_or_freq" .int32_t <|
    .cons "clock_drift_or_freq_accuracy" .uint32_t <|
    .cons "flags" .uint32_t <|
    .cons "checksum" (.array .uint8_t 2) .nil

/-- Declaration `struct AidEph { ... };` (not wrapped in `PACK`). -/
def AidEph : CType :=
  .struct false <|
    .cons "header" UbloxHeader <|
    .cons "nav_bbr_mask" .uint16_t <|
    .cons "reset_mode" .uint8_t <|
    .cons "reserved" .uint8_t <|
    .cons "checksum" (.array .uint8_t 2) .nil

/-- Declaration `struct AidAlm { ... };` (not wrapped in `PACK`). -/
def AidAlm : CType :=
  .struct false <|
    .cons "header" UbloxHeader <|
    .cons "nav_bbr_mask" .uint16_t <|
    .cons "reset_mode" .uint8_t <|
    .cons "reserved" .uint8_t <|
    .cons "checksum" (.array .uint8_t 2) .nil

/-- Declaration `struct AidHui { ... };` (not wrapped in `PACK`). -/
def AidHui : CType :=
  .struct false <|
    .cons "header" UbloxHeader <|
    .cons "nav_bbr_mask" .uint16_t <|
    .cons "reset_mode" .uint8_t <|
    .cons "reserved" .uint8_t <|
    .cons "checksum" (.array .uint8_t 2) .nil

/-- Enumeration `enum Message_ID`. -/
inductive Message_ID where
  | NAV_SOL
  | RXM_EPH
  | rangeID
  | NAV_VELNED
  | NAV_POSLLH
  | MON_VER
  deriving DecidableEq, Repr

/-- Integer value of each enumerator, as written in the enum. -/
def Message_ID.val : Message_ID → Nat
  | .NAV_SOL => 262
  | .RXM_EPH => 561
  | .rangeID => 528
  | .NAV_VELNED => 274
  | .NAV_POSLLH => 258
  | .MON_VER => 2564

/-- All enumerators, in declaration order. -/
def Message_ID.all : List Message_ID :=
  [.NAV_SOL, .RXM_EPH, .rangeID, .NAV_VELNED, .NAV_POSLLH, .MON_VER]

/-! ## Documentation comments of the header file

Every message struct carries a comment of the form
`ID: 0x01  0x06  Length=52 bytes`; a few members carry a `Scaling 1e-k`
comment. -/

/-- Content of the `ID: <class> <id> Length=<n> bytes` comment of a message
struct. -/
structure MessageDoc where
  msgClass : Nat
  msgId : Nat
  lengths : List Nat
  deriving DecidableEq, Repr

/-- Comment `ID: 0x01  0x06  Length=52 bytes`. -/
def NavSol_doc : MessageDoc := ⟨0x01, 0x06, [52]⟩
/-- Comment `ID: 0x01  0x02  Length=28 bytes`. -/
def NavPosLLH_doc : MessageDoc := ⟨0x01, 0x02, [28]⟩
/-- Comment `ID: 0x01  0x12  Length=36 bytes`. -/
def NavVelNed_doc : MessageDoc := ⟨0x01, 0x12, [36]⟩
/-- Comment `ID: 0x06  0x01 Length=3 bytes`. -/
def CfgMsg_doc : MessageDoc := ⟨0x06, 0x01, [3]⟩
/-- Comment `ID: 0x06  0x09 Length=12 bytes`. -/
def CfgCfg_doc : MessageDoc := ⟨0x06, 0x09, [12]⟩
/-- Comment `ID: 0x06  0x04 Length=4 bytes`. -/
def CfgRst_doc : MessageDoc := ⟨0x06, 0x04, [4]⟩
/-- Comment `ID: 0x06  0x00 Length=20 bytes`. -/
def CfgPrt_doc : MessageDoc := ⟨0x06, 0x00, [20]⟩
/-- Comment `ID: 0x0B  0x01 Length=48 bytes`. -/
def AidIni_doc : MessageDoc := ⟨0x0B, 0x01, [48]⟩
/-- Comment `ID: 0x0B  0x31 Length=8 or 104 bytes`. -/
def AidEph_doc : MessageDoc := ⟨0x0B, 0x31, [8, 104]⟩
/-- Modelled from the spec: the (class, id) pair of the message each enumerator
names. The header file states the pair only for the messages that have a
struct (NAV-SOL, NAV-POSLLH, NAV-VELNED, taken from their `ID:` comments); for
`RXM_EPH`, `rangeID` and `MON_VER` the pair is the one the specification
gives (ephemeris 0x02 0x31, range/observation log 0x02 0x10, version info
0x0A 0x04). -/
def Message_ID.classId : Message_ID → Nat × Nat
  | .NAV_SOL => (NavSol_doc.msgClass, NavSol_doc.msgId)
  | .NAV_POSLLH => (NavPosLLH_doc.msgClass, NavPosLLH_doc.msgId)
  | .NAV_VELNED => (NavVelNed_doc.msgClass, NavVelNed_doc.msgId)
  | .RXM_EPH => (0x02, 0x31)
  | .rangeID => (0x02, 0x10)
  | .MON_VER => (0x0A, 0x04)

/-- Members of `NavPosLLH` commented `Scaling 1e-k`, with the exponent `k`. -/
def NavPosLLH_scaling : String → Option Nat
  | "longitude_scaled" => some 7
  | "latitude_scaled" => some 7
  | _ => none

/-- Members of `NavVelNed` commented `Scaling 1e-k`, with the exponent `k`. -/
def NavVelNed_scaling : String → Option Nat
  | "heading_scaled" => some 5
  | "heading_accuracy" => some 5
  | _ => none

/-! ## Derived notions used by the statements -/

/-- Key of a (class, id) pair: class in the high byte. -/
def messageKey (cls id : Nat) : Nat := cls * 256 + id

/-- The in-memory image of message struct `s` is the wire frame of a message
with `len` payload bytes: the first payload member starts at byte 6, the
checksum member at byte `6 + len`, and the struct is `len + 8` bytes long. -/
def CType.isWireFrame (s : CType) (len : Nat) : Prop :=
  (s.firstPayloadField.bind s.offsetof) = some 6 ∧
  s.offsetof "checksum" = some (6 + len) ∧
  s.sizeof = len + 8

instance (s : CType) (len : Nat) : Decidable (s.isWireFrame len) := by
  unfold CType.isWireFrame; infer_instance

/-- An integer type can hold the value `v`. -/
def CType.holds (t : CType) (v : ℚ) : Prop :=
  match t.minVal, t.maxVal with
  | some lo, some hi => (lo : ℚ) ≤ v ∧ v ≤ (hi : ℚ)
  | _, _ => False

/-- Rounding up to a multiple of 1 changes nothing. -/
theorem alignUp_one (off : Nat) : alignUp off 1 = off := by
  simp [alignUp]

/-- A packed member list is laid out back to back: it ends at the start offset
plus the summed widths of the members. -/
theorem Members.endOffset_packed :
    ∀ (ms : Members) (off : Nat), ms.endOffset true off = off + ms.widthSum
  | .nil, off => by simp [Members.endOffset, Members.widthSum]
  | .cons _ ty rest, off => by
      simp only [Members.endOffset, Members.widthSum, if_true, alignUp_one]
      rw [Members.endOffset_packed rest]
      omega

/-- A struct wrapped in `PACK` has no padding: its size is the sum of the
widths of its members. -/
theorem CType.sizeof_packed (ms : Members) :
    (CType.struct true ms).sizeof = ms.widthSum := by
  simp [CType.sizeof, Members.endOffset_packed, alignUp_one]

/-- C1: the frame header `UbloxHeader` is exactly 6 bytes long, which is the
sum of the widths of its members (no padding), and its members sit at the
wire-format offsets: `sync1` at byte 0, `sync2` at byte 1, `message_class` at
byte 2, `message_id` at byte 3 and the 16-bit `payload_length` at bytes 4-5. -/
theorem UbloxHeader_is_wire_header :
    UbloxHeader.sizeof = 6 ∧
    UbloxHeader.members.widthSum = 6 ∧
    UbloxHeader.members.names =
      ["sync1", "sync2", "message_class", "message_id", "payload_length"] ∧
    UbloxHeader.offsetof "sync1" = some 0 ∧
    UbloxHeader.offsetof "sync2" = some 1 ∧
    UbloxHeader.offsetof "message_class" = some 2 ∧
    UbloxHeader.offsetof "message_id" = some 3 ∧
    UbloxHeader.offsetof "payload_length" = some 4 ∧
    UbloxHeader.fieldType "payload_length" = some .uint16_t ∧
    CType.uint16_t.sizeof = 2 := by
  refine ⟨by decide, by decide, by decide, by decide, by decide, by decide, by decide,
    by decide, rfl, rfl⟩

/-- C2: every constant of the `Message_ID` enum equals `class * 256 + id` of
the message it names: NAV_SOL = 0x0106 = 262, NAV_POSLLH = 0x0102 = 258,
NAV_VELNED = 0x0112 = 274, RXM_EPH = 0x0231 = 561, rangeID = 0x0210 = 528 and
MON_VER = 0x0A04 = 2564. -/
theorem Message_ID_val_eq_key :
    (∀ m : Message_ID, m.val = messageKey m.classId.1 m.classId.2) ∧
    (Message_ID.NAV_SOL.val = 0x0106 ∧ Message_ID.NAV_SOL.val = 262) ∧
    (Message_ID.NAV_POSLLH.val = 0x0102 ∧ Message_ID.NAV_POSLLH.val = 258) ∧
    (Message_ID.NAV_VELNED.val = 0x0112 ∧ Message_ID.NAV_VELNED.val = 274) ∧
    (Message_ID.RXM_EPH.val = 0x0231 ∧ Message_ID.RXM_EPH.val = 561) ∧
    (Message_ID.rangeID.val = 0x0210 ∧ Message_ID.rangeID.val = 528) ∧
    (Message_ID.MON_VER.val = 0x0A04 ∧ Message_ID.MON_VER.val = 2564) := by
  refine ⟨?_, by decide, by decide, by decide, by decide, by decide, by decide⟩
  intro m
  cases m <;> decide

/-- C3: for each navigation message struct the widths of the members declared
between the header and the checksum sum to the documented fixed payload
length: `NavSol` 52 bytes, `NavPosLLH` 28 bytes, `NavVelNed` 36 bytes. -/
theorem nav_payload_widths :
    (NavSol.payloadWidth = 52 ∧ NavSol_doc.lengths = [52]) ∧
    (NavPosLLH.payloadWidth = 28 ∧ NavPosLLH_doc.lengths = [28]) ∧
    (NavVelNed.payloadWidth = 36 ∧ NavVelNed_doc.lengths = [36]) := by
  decide

/-- C4: for each command message struct the widths of the members declared
between the header and the checksum sum to the documented fixed payload
length: `CfgMsg` 3 bytes, `CfgCfg` 12 bytes, `CfgRst` 4 bytes, `CfgPrt` 20
bytes, `AidIni` 48 bytes. -/
theorem command_payload_widths :
    (CfgMsg.payloadWidth = 3 ∧ CfgMsg_doc.lengths = [3]) ∧
    (CfgCfg.payloadWidth = 12 ∧ CfgCfg_doc.lengths = [12]) ∧
    (CfgRst.payloadWidth = 4 ∧ CfgRst_doc.lengths = [4]) ∧
    (CfgPrt.payloadWidth = 20 ∧ CfgPrt_doc.lengths = [20]) ∧
    (AidIni.payloadWidth = 48 ∧ AidIni_doc.lengths = [48]) := by
  decide

/-- C5 (evaluation of the code): the members that `AidEph` declares between its
header and its checksum are `nav_bbr_mask`, `reset_mode` and `reserved`, 4
bytes in all, which is neither of the two lengths, 8 and 104, that the
struct's own comment documents for the message. -/
theorem AidEph_payload_is_four_bytes :
    AidEph.members.payload.names = ["nav_bbr_mask", "reset_mode", "reserved"] ∧
    AidEph.payloadWidth = 4 ∧
    AidEph_doc.lengths = [8, 104] ∧
    AidEph.payloadWidth ∉ AidEph_doc.lengths ∧
    AidEph.payloadWidth = CfgRst.payloadWidth := by
  decide

/-- C6 (evaluation of the code): laid out by the compiler, `NavSol`,
`NavPosLLH`, `NavVelNed`, `CfgMsg`, `CfgRst` and `CfgPrt` are images of their
wire frames (first payload member at byte 6, checksum at `6 + length`, size
`length + 8`). `CfgCfg` and `AidIni`, which are not wrapped in `PACK` and whose
first payload member is 4-byte aligned, are not: their first payload member is
at byte 8, their checksum at bytes 20 and 56, and their sizes are 24 and 60,
where the wire frames have 6, 18, 20 and 6, 54, 56. -/
theorem unpacked_structs_are_not_wire_frames :
    (NavSol.isWireFrame 52 ∧ NavPosLLH.isWireFrame 28 ∧ NavVelNed.isWireFrame 36 ∧
      CfgMsg.isWireFrame 3 ∧ CfgRst.isWireFrame 4 ∧ CfgPrt.isWireFrame 20) ∧
    (CfgCfg.isPacked = false ∧ CfgCfg_doc.lengths = [12] ∧ ¬ CfgCfg.isWireFrame 12 ∧
      CfgCfg.firstPayloadField = some "clear_mask" ∧
      CfgCfg.offsetof "clear_mask" = some 8 ∧
      CfgCfg.offsetof "checksum" = some 20 ∧
      CfgCfg.sizeof = 24) ∧
    (AidIni.isPacked = false ∧ AidIni_doc.lengths = [48] ∧ ¬ AidIni.isWireFrame 48 ∧
      AidIni.firstPayloadField = some "ecefXorLat" ∧
      AidIni.offsetof "ecefXorLat" = some 8 ∧
      AidIni.offsetof "checksum" = some 56 ∧
      AidIni.sizeof = 60) := by
  decide

/-- C9: the six `Message_ID` constants are pairwise distinct and each is below
65536, so `key / 256` and `key % 256` are two byte values from which the key is
recovered as `class * 256 + id`, and no two enumerated messages share a
(class, id) pair. -/
theorem Message_ID_keys_distinct :
    Function.Injective Message_ID.val ∧
    (Message_ID.all.map Message_ID.val).Nodup ∧
    (∀ m : Message_ID, m ∈ Message_ID.all) ∧
    (∀ m : Message_ID, m.val < 65536 ∧ m.val / 256 < 256 ∧ m.val % 256 < 256 ∧
      messageKey (m.val / 256) (m.val % 256) = m.val ∧
      (m.val / 256, m.val % 256) = m.classId) ∧
    Function.Injective (fun m : Message_ID => (m.val / 256, m.val % 256)) := by
  refine ⟨?_, by decide, ?_, ?_, ?_⟩
  · intro a b h
    cases a <;> cases b <;> first | rfl | (exact absurd h (by decide))
  · intro m
    cases m <;> decide
  · intro m
    cases m <;> decide
  · intro a b h
    cases a <;> cases b <;> first | rfl | (exact absurd h (by decide))

/-- C10: every physically valid value of a scaled member is within the range
of the member's integer type: a longitude in [-180, 180] and a latitude in
[-90, 90] degrees multiplied by 10^7 lie within the range of the `int32_t`
members `longitude_scaled` and `latitude_scaled` of `NavPosLLH`, and a heading
in [0, 360] degrees multiplied by 10^5 lies within the range of the `int32_t`
member `heading_scaled` and of the `uint32_t` member `heading_accuracy` of
`NavVelNed`. -/
theorem scaled_fields_in_range (lon lat hdg : ℚ)
    (hlon : -180 ≤ lon ∧ lon ≤ 180) (hlat : -90 ≤ lat ∧ lat ≤ 90)
    (hhdg : 0 ≤ hdg ∧ hdg ≤ 360) :
    (NavPosLLH.fieldType "longitude_scaled" = some .int32_t ∧
      NavPosLLH_scaling "longitude_scaled" = some 7 ∧
      CType.int32_t.holds (lon * 10 ^ 7)) ∧
    (NavPosLLH.fieldType "latitude_scaled" = some .int32_t ∧
      NavPosLLH_scaling "latitude_scaled" = some 7 ∧
      CType.int32_t.holds (lat * 10 ^ 7)) ∧
    (NavVelNed.fieldType "heading_scaled" = some .int32_t ∧
      NavVelNed_scaling "heading_scaled" = some 5 ∧
      CType.int32_t.holds (hdg * 10 ^ 5)) ∧
    (NavVelNed.fieldType "heading_accuracy" = some .uint32_t ∧
      NavVelNed_scaling "heading_accuracy" = some 5 ∧
      CType.uint32_t.holds (hdg * 10 ^ 5)) := by
  obtain ⟨hlon1, hlon2⟩ := hlon
  obtain ⟨hlat1, hlat2⟩ := hlat
  obtain ⟨hhdg1, hhdg2⟩ := hhdg
  refine ⟨⟨rfl, rfl, ?_⟩, ⟨rfl, rfl, ?_⟩, ⟨rfl, rfl, ?_⟩, ⟨rfl, rfl, ?_⟩⟩
  · simp only [CType.holds, CType.minVal, CType.maxVal]
    push_cast
    constructor <;> linarith
  · simp only [CType.holds, CType.minVal, CType.maxVal]
    push_cast
    constructor <;> linarith
  · simp only [CType.holds, CType.minVal, CType.maxVal]
    push_cast
    constructor <;> linarith
  · simp only [CType.holds, CType.minVal, CType.maxVal]
    push_cast
    constructor <;> linarith

/-- Witness for C10: the scenario position (longitude -100, latitude 45) and a
heading of 90 degrees satisfy the hypotheses, and the scaled values
-1000000000, 450000000 and 9000000 are within the ranges of their members. -/
theorem scaled_fields_in_range_witness :
    ((-180 : ℚ) ≤ -100 ∧ (-100 : ℚ) ≤ 180) ∧ ((-90 : ℚ) ≤ 45 ∧ (45 : ℚ) ≤ 90) ∧
    ((0 : ℚ) ≤ 90 ∧ (90 : ℚ) ≤ 360) ∧
    CType.int32_t.holds ((-100 : ℚ) * 10 ^ 7) ∧ CType.int32_t.holds ((45 : ℚ) * 10 ^ 7) ∧
    CType.int32_t.holds ((90 : ℚ) * 10 ^ 5) ∧ CType.uint32_t.holds ((90 : ℚ) * 10 ^ 5) :=
  have h := scaled_fields_in_range (-100) 45 90 (by norm_num) (by norm_num) (by norm_num)
  ⟨by norm_num, by norm_num, by norm_num, h.1.2.2, h.2.1.2.2, h.2.2.1.2.2, h.2.2.2.2.2⟩

end Ublox
